import Mathlib

set_option maxRecDepth 100000

/-!
Shallow embedding of the persona-session protocol of the
Useless_AA_Battery web application.

Embedded source files:
* `src/app/api/generate-persona/route.ts` — persona extraction route:
  regex-carves the outermost brace-delimited substring from the
  provider's text and runs it through `JSON.parse`.
* `src/app/api/chat/route.ts` — chat route: assembles the system
  instruction, full history and new user message into a message list.
* `src/app/page.tsx` (Home) — session state: `generatePersona` and
  `handleSendMessage`.
* `src/components/ChatBox.tsx` — caller-facing input guard.

External HTTP calls are modelled by an explicit outcome parameter;
everything else is translated directly from the TypeScript.
-/

/-! ## JSON values and `JSON.parse`

The generate-persona route calls JavaScript `JSON.parse` on the carved
substring.  The embedding below is a strict JSON parser: value grammar
with objects, arrays, strings (with escapes; lone-surrogate escapes are
rejected), numbers (kept as their lexeme, since no claim inspects
numeric values), literals, and insignificant whitespace, requiring the
whole input to be consumed.  Duplicate object keys follow JavaScript:
the last occurrence wins on field access.
-/

inductive Json where
  | null : Json
  | bool (b : Bool) : Json
  | num (lexeme : String) : Json
  | str (s : String) : Json
  | arr (elems : List Json) : Json
  | obj (fields : List (String × Json)) : Json

/-- Field access on a decoded object; the last binding of a key wins,
as in JavaScript. -/
def Json.getField : Json → String → Option Json
  | .obj fields, k => fields.reverse.lookup k
  | _, _ => none

/-- Length of a decoded array, when the value is one. -/
def Json.arrLength : Json → Option Nat
  | .arr elems => some elems.length
  | _ => none

/-- JSON insignificant whitespace. -/
def jsonWs (c : Char) : Bool :=
  c = ' ' || c = '\t' || c = '\n' || c = '\r'

/-- Drop leading JSON whitespace. -/
def skipWs : List Char → List Char
  | [] => []
  | c :: cs => if jsonWs c then skipWs cs else c :: cs

/-- Value of a hex digit. -/
def hexVal (c : Char) : Option Nat :=
  if 48 ≤ c.toNat ∧ c.toNat ≤ 57 then some (c.toNat - 48)
  else if 97 ≤ c.toNat ∧ c.toNat ≤ 102 then some (c.toNat - 97 + 10)
  else if 65 ≤ c.toNat ∧ c.toNat ≤ 70 then some (c.toNat - 65 + 10)
  else none

/-- Four hex digits of a unicode escape. -/
def parseHex4 : List Char → Option (Nat × List Char)
  | a :: b :: c :: d :: rest =>
    match hexVal a, hexVal b, hexVal c, hexVal d with
    | some x, some y, some z, some w =>
        some (((x * 16 + y) * 16 + z) * 16 + w, rest)
    | _, _, _, _ => none
  | _ => none

/-- Body of a JSON string, after the opening quote.  Accumulates
decoded characters; raw control characters and unknown or
lone-surrogate escapes are rejected. -/
def parseStringBody : Nat → List Char → List Char → Option (String × List Char)
  | 0, _, _ => none
  | fuel + 1, acc, cs =>
    match cs with
    | [] => none
    | c :: rest =>
      if c = '"' then some (String.mk acc.reverse, rest)
      else if c = '\\' then
        match rest with
        | [] => none
        | e :: rest2 =>
          if e = '"' then parseStringBody fuel ('"' :: acc) rest2
          else if e = '\\' then parseStringBody fuel ('\\' :: acc) rest2
          else if e = '/' then parseStringBody fuel ('/' :: acc) rest2
          else if e = 'b' then parseStringBody fuel ('\x08' :: acc) rest2
          else if e = 'f' then parseStringBody fuel ('\x0c' :: acc) rest2
          else if e = 'n' then parseStringBody fuel ('\n' :: acc) rest2
          else if e = 'r' then parseStringBody fuel ('\x0d' :: acc) rest2
          else if e = 't' then parseStringBody fuel ('\t' :: acc) rest2
          else if e = 'u' then
            match parseHex4 rest2 with
            | some (n, rest3) =>
              if n < 0xd800 ∨ 0xdfff < n ∧ n < 0x110000 then
                parseStringBody fuel (Char.ofNat n :: acc) rest3
              else none
            | none => none
          else none
      else if c.toNat < 0x20 then none
      else parseStringBody fuel (c :: acc) rest

/-- Longest leading run of decimal digits. -/
def spanDigits : List Char → List Char × List Char
  | [] => ([], [])
  | c :: rest =>
    if c.isDigit then
      let (ds, r) := spanDigits rest
      (c :: ds, r)
    else ([], c :: rest)

/-- Optional fraction part of a JSON number. -/
def parseFrac (cs : List Char) : Option (List Char × List Char) :=
  match cs with
  | '.' :: rest =>
    let (ds, r) := spanDigits rest
    if ds.isEmpty then none else some ('.' :: ds, r)
  | _ => some ([], cs)

/-- Optional exponent part of a JSON number. -/
def parseExp (cs : List Char) : Option (List Char × List Char) :=
  match cs with
  | [] => some ([], [])
  | c :: rest =>
    if c = 'e' ∨ c = 'E' then
      let (sgn, rest2) :=
        match rest with
        | '+' :: r => (['+'], r)
        | '-' :: r => (['-'], r)
        | _ => (([] : List Char), rest)
      let (ds, r) := spanDigits rest2
      if ds.isEmpty then none else some (c :: (sgn ++ ds), r)
    else some ([], c :: rest)

/-- A JSON number, kept as its lexeme.  Grammar: optional minus, then
`0` or a nonzero-led digit run, optional fraction, optional exponent. -/
def parseNumber (cs : List Char) : Option (Json × List Char) :=
  let (sign, cs1) :=
    match cs with
    | '-' :: rest => ((['-'] : List Char), rest)
    | _ => (([] : List Char), cs)
  match cs1 with
  | [] => none
  | c :: rest =>
    if ¬ c.isDigit then none
    else
      let (intPart, r0) :=
        if c = '0' then ([c], rest)
        else
          let (ds, r) := spanDigits rest
          (c :: ds, r)
      match parseFrac r0 with
      | none => none
      | some (fracPart, r1) =>
        match parseExp r1 with
        | none => none
        | some (expPart, r2) =>
          some (Json.num (String.mk (sign ++ intPart ++ fracPart ++ expPart)), r2)

mutual

/-- A JSON value, fuel-indexed for termination. -/
def parseValue : Nat → List Char → Option (Json × List Char)
  | 0, _ => none
  | fuel + 1, cs =>
    match skipWs cs with
    | [] => none
    | 't' :: 'r' :: 'u' :: 'e' :: rest => some (Json.bool true, rest)
    | 'f' :: 'a' :: 'l' :: 's' :: 'e' :: rest => some (Json.bool false, rest)
    | 'n' :: 'u' :: 'l' :: 'l' :: rest => some (Json.null, rest)
    | c :: rest =>
      if c = '"' then
        match parseStringBody (rest.length + 1) [] rest with
        | some (s, r) => some (Json.str s, r)
        | none => none
      else if c = '\x7b' then parseObjFields fuel [] rest
      else if c = '[' then parseArrElems fuel [] rest
      else parseNumber (c :: rest)

/-- Members of a JSON object; entered right after the opening brace
(`acc = []`) or right after a separating comma (`acc ≠ []`, so a
trailing comma is rejected). -/
def parseObjFields : Nat → List (String × Json) → List Char → Option (Json × List Char)
  | 0, _, _ => none
  | fuel + 1, acc, cs =>
    match skipWs cs with
    | '\x7d' :: rest =>
      if acc.isEmpty then some (Json.obj [], rest) else none
    | '"' :: rest =>
      match parseStringBody (rest.length + 1) [] rest with
      | none => none
      | some (key, r1) =>
        match skipWs r1 with
        | ':' :: r2 =>
          match parseValue fuel r2 with
          | none => none
          | some (v, r3) =>
            match skipWs r3 with
            | ',' :: r4 => parseObjFields fuel ((key, v) :: acc) r4
            | '\x7d' :: r4 => some (Json.obj ((key, v) :: acc).reverse, r4)
            | _ => none
        | _ => none
    | _ => none

/-- Elements of a JSON array; entered right after the opening bracket
(`acc = []`) or right after a separating comma. -/
def parseArrElems : Nat → List Json → List Char → Option (Json × List Char)
  | 0, _, _ => none
  | fuel + 1, acc, cs =>
    match skipWs cs with
    | ']' :: rest =>
      if acc.isEmpty then some (Json.arr [], rest) else none
    | rest =>
      match parseValue fuel rest with
      | none => none
      | some (v, r1) =>
        match skipWs r1 with
        | ',' :: r2 => parseArrElems fuel (v :: acc) r2
        | ']' :: r2 => some (Json.arr ((v :: acc)).reverse, r2)
        | _ => none

end

/-- JavaScript `JSON.parse`: one value, surrounded only by
whitespace. -/
def parseJson (s : String) : Option Json :=
  match parseValue (s.length + 1) s.data with
  | none => none
  | some (j, rest) => if (skipWs rest).isEmpty then some j else none

example : parseJson "\x7b\"a\": [1, true, \"x\"]\x7d" =
    some (Json.obj [("a", Json.arr [Json.num "1", Json.bool true, Json.str "x"])]) := rfl
example : parseJson "\x7b\"a\":1,\x7d" = none := rfl
example : parseJson "  \x7b\x7d  " = some (Json.obj []) := rfl
example : parseJson "\x7b\"a\":1\x7d x" = none := rfl

/-! ## Brace extraction

`route.ts` line 95: `responseContent.match(/\x7b[\s\S]*\x7d/)`.  The
regex matches from the first opening brace through the last closing
brace of the whole text (the leftmost start, with the greedy any-char
run backtracking to the last closing brace); there is a match exactly
when some closing brace follows the first opening brace. -/
def extractBraces (s : String) : Option String :=
  let cs := s.data
  match cs.findIdx? (· == '\x7b') with
  | none => none
  | some i =>
    match cs.reverse.findIdx? (· == '\x7d') with
    | none => none
    | some rj =>
      let j := cs.length - 1 - rj
      if i < j then some (String.mk ((cs.drop i).take (j - i + 1))) else none

example : extractBraces "ab \x7bc\x7d d\x7de" = some "\x7bc\x7d d\x7d" := rfl
example : extractBraces "no braces" = none := rfl
example : extractBraces "\x7d\x7b" = none := rfl

/-! ## Outcome of an external completion call

Both routes issue one `fetch` to the completions endpoint and then
read `completion.choices[0]?.message?.content`.  The call is modelled
by its observable outcome: the fetch threw, the response had a
non-success status, or it succeeded with an optional content string
(`none` when the envelope carries no text; the routes also treat an
empty string as missing, via JavaScript falsiness). -/
inductive ProviderOutcome where
  | networkError : ProviderOutcome
  | httpError (status : Nat) : ProviderOutcome
  | ok (content : Option String) : ProviderOutcome

/-- The provider call failed from the routes' point of view: threw,
non-success status, or missing/empty content. -/
def providerFails : ProviderOutcome → Bool
  | .ok (some c) => c.isEmpty
  | _ => true

/-! ## The generate-persona route -/

/-- Result of `POST /api/generate-persona`: a success body carrying
the parsed persona JSON, or an error body with a status code. -/
inductive PersonaRouteResult where
  | ok (persona : Json) : PersonaRouteResult
  | err (message : String) (status : Nat) : PersonaRouteResult

/-- `POST` of `src/app/api/generate-persona/route.ts`, as a function
of whether an image file was provided and of the provider-call
outcome: guard on the image, carve the brace-delimited substring,
`JSON.parse` it, and return it as the persona — the parsed object is
returned as-is, with no field validation.  Every thrown error is
caught and mapped to a 500 response. -/
def generatePersonaRoute (hasImage : Bool) (provider : ProviderOutcome) :
    PersonaRouteResult :=
  if ¬ hasImage then .err "No image file provided" 400
  else
    match provider with
    | .networkError => .err "Failed to generate persona" 500
    | .httpError _ => .err "Failed to generate persona" 500
    | .ok none => .err "Failed to generate persona" 500
    | .ok (some c) =>
      if c.isEmpty then .err "Failed to generate persona" 500
      else
        match extractBraces c with
        | none => .err "Failed to generate persona" 500
        | some candidate =>
          match parseJson candidate with
          | none => .err "Failed to generate persona" 500
          | some j => .ok j

/-! ## The chat route and its prompt assembly -/

/-- Roles of a history turn (`'user' | 'assistant'` in the TypeScript
interfaces). -/
inductive ChatRole where
  | user : ChatRole
  | assistant : ChatRole
deriving DecidableEq

/-- Roles of an outbound completion message (history roles plus
`system`). -/
inductive Role where
  | system : Role
  | user : Role
  | assistant : Role
deriving DecidableEq

/-- History roles embed verbatim into message roles. -/
def ChatRole.toRole : ChatRole → Role
  | .user => .user
  | .assistant => .assistant

/-- One entry of the chat history (`ChatMessage` in `page.tsx`,
`chatHistory` entries in `route.ts`). -/
structure Turn where
  role : ChatRole
  content : String
deriving DecidableEq

/-- One role-tagged message of the outbound completion request. -/
structure Msg where
  role : Role
  content : String
deriving DecidableEq

/-- The persona shape of the TypeScript `PersonaResult` interface. -/
structure Persona where
  name : String
  description : String
  personality : String
  background : String
  traits : List String
deriving DecidableEq

/-- The system prompt of `src/app/api/chat/route.ts` lines 31–41: the
fixed template with the persona fields and comma-joined traits
interpolated. -/
def systemPrompt (p : Persona) : String :=
  "You are " ++ p.name ++ ". " ++ p.description ++
  "\n\nYour personality: " ++ p.personality ++
  "\n\nYour background: " ++ p.background ++
  "\n\nYour key traits: " ++ String.intercalate ", " p.traits ++
  "\n\nIMPORTANT: You must stay in character as " ++ p.name ++
  " at all times. Respond as if you are this person/object with the personality, background, and traits described above. Be creative, engaging, and consistent with your character. Use the personality traits and background to inform your responses." ++
  "\n\nKeep your responses conversational and relatively brief (2-4 sentences typically), but feel free to be more detailed when the situation calls for it. Show emotion and personality in your responses."

/-- A history turn copied into an outbound message, role and content
preserved (`chatHistory.map` in the route). -/
def turnToMsg (t : Turn) : Msg :=
  ⟨t.role.toRole, t.content⟩

/-- The message list of `src/app/api/chat/route.ts` lines 44–57: the
system prompt, then the whole history in order, then the new user
message last. -/
def assembleMessages (p : Persona) (chatHistory : List Turn) (message : String) :
    List Msg :=
  ⟨Role.system, systemPrompt p⟩ :: (chatHistory.map turnToMsg ++ [⟨Role.user, message⟩])

/-- Result of `POST /api/chat`: the assistant text, or an error body
with a status code. -/
inductive ChatResult where
  | ok (response : String) : ChatResult
  | err (message : String) (status : Nat) : ChatResult
deriving DecidableEq

/-- What the chat route did: the message list it sent to the
completion provider (when the request guard passed), and its
result. -/
structure ChatRouteOutput where
  providerRequest : Option (List Msg)
  result : ChatResult
deriving DecidableEq

/-- `POST` of `src/app/api/chat/route.ts`, as a function of the parsed
request body and the provider-call outcome: guard `!message ||
!persona` (400), assemble the message list, send it, and require
non-empty response content; every thrown error is caught and mapped to
a 500 response. -/
def chatRoutePost (message : String) (persona : Option Persona)
    (chatHistory : List Turn) (provider : ProviderOutcome) : ChatRouteOutput :=
  if message.isEmpty then ⟨none, .err "Message and persona are required" 400⟩
  else
    match persona with
    | none => ⟨none, .err "Message and persona are required" 400⟩
    | some p =>
      let messages := assembleMessages p chatHistory message
      match provider with
      | .networkError => ⟨some messages, .err "Failed to generate response" 500⟩
      | .httpError _ => ⟨some messages, .err "Failed to generate response" 500⟩
      | .ok none => ⟨some messages, .err "Failed to generate response" 500⟩
      | .ok (some c) =>
        if c.isEmpty then ⟨some messages, .err "Failed to generate response" 500⟩
        else ⟨some messages, .ok c⟩

/-! ## The Home session state -/

/-- The session state held by the `Home` component: the selected image
data URL, the installed persona, and the chat history. -/
structure HomeState where
  selectedImage : Option String
  persona : Option Persona
  chatHistory : List Turn
deriving DecidableEq

/-- Outcome of Home's fetch of `/api/generate-persona`: the fetch (or
the blob conversion before it) threw, the response was non-success, or
it succeeded carrying a persona body. -/
inductive PersonaApiOutcome where
  | networkError : PersonaApiOutcome
  | httpFail : PersonaApiOutcome
  | ok (p : Persona) : PersonaApiOutcome

/-- `generatePersona` of `page.tsx` lines 236–270: no-op without a
selected image; on a non-success or thrown fetch the error is caught
and the state is untouched; on success the persona is replaced and the
chat history reset to empty.  The returned flag is the success toast
(`true`) versus the error toast or early return (`false`). -/
def generatePersona (st : HomeState) (api : PersonaApiOutcome) :
    HomeState × Bool :=
  match st.selectedImage with
  | none => (st, false)
  | some _ =>
    match api with
    | .ok p => ({ st with persona := some p, chatHistory := [] }, true)
    | _ => (st, false)

/-- The fixed fallback assistant text appended when a turn's upstream
call fails (`page.tsx` line 312). -/
def fallbackText : String :=
  "I\x27m sorry, I\x27m having trouble responding right now. Please try again."

/-- What one send did: the state afterwards, the message list sent to
the completion provider (if the send got that far), and whether the
operation re-threw to its caller. -/
structure SendResult where
  state : HomeState
  request : Option (List Msg)
  threw : Bool
deriving DecidableEq

/-- `handleSendMessage` of `page.tsx` lines 272–318: no-op without a
persona; otherwise append the user turn optimistically, post
`message`, the persona and the already-extended history to the chat
route, then append the assistant reply on success, or append the fixed
fallback turn and re-throw on failure. -/
def handleSendMessage (st : HomeState) (message : String)
    (provider : ProviderOutcome) : SendResult :=
  match st.persona with
  | none => ⟨st, none, false⟩
  | some p =>
    let nextHistory := st.chatHistory ++ [⟨ChatRole.user, message⟩]
    let routeOut := chatRoutePost message (some p) nextHistory provider
    match routeOut.result with
    | .ok c =>
      ⟨{ st with chatHistory := nextHistory ++ [⟨ChatRole.assistant, c⟩] },
       routeOut.providerRequest, false⟩
    | .err _ _ =>
      ⟨{ st with chatHistory := nextHistory ++ [⟨ChatRole.assistant, fallbackText⟩] },
       routeOut.providerRequest, true⟩

/-- The whitespace set of JavaScript string trimming (the ASCII
whitespace characters plus no-break space; further exotic Unicode
space separators are omitted, as no input here contains them). -/
def jsWhitespace (c : Char) : Bool :=
  c = ' ' || c = '\t' || c = '\n' || c = '\x0b' || c = '\x0c' || c = '\x0d' ||
    c = '\u00A0'

/-- JavaScript `String.prototype.trim`: strip leading and trailing
whitespace. -/
def jsTrim (s : String) : String :=
  String.mk (((s.data.dropWhile jsWhitespace).reverse.dropWhile jsWhitespace).reverse)

/-- `handleSendMessage` of `ChatBox.tsx` lines 55–73 composed with
Home's handler: the caller-facing guard returns without doing anything
when the trimmed input is empty, no persona is set, or a turn is in
flight; otherwise it forwards the (untrimmed) input to Home's
`onSendMessage`. -/
def submitTurn (st : HomeState) (inputMessage : String) (isBusy : Bool)
    (provider : ProviderOutcome) : SendResult :=
  if (jsTrim inputMessage).isEmpty || st.persona.isNone || isBusy then ⟨st, none, false⟩
  else handleSendMessage st inputMessage provider

/-- A sequence of sends through Home's handler, each with its own
input text and provider outcome. -/
def runTurns (st : HomeState) (turns : List (String × ProviderOutcome)) :
    HomeState :=
  match turns with
  | [] => st
  | t :: rest => runTurns (handleSendMessage st t.1 t.2).state rest

/-! ## Concrete sample values used by the witnesses -/

/-- The Rocky persona of the spec examples. -/
def samplePersona : Persona :=
  ⟨"Rocky", "a pebble", "stoic", "fell from a cliff",
   ["calm", "gritty", "old", "patient", "silent"]⟩

/-- A session state with an image, an installed persona and an empty
log. -/
def sampleState : HomeState :=
  ⟨some "data:image/jpeg;base64,AAAA", some samplePersona, []⟩

/-- The provider text of the extraction round-trip example: noise,
then a well-formed persona object, then trailing noise. -/
def rockyText : String :=
  "noise \x7b\"name\":\"Rocky\",\"description\":\"a pebble\",\"personality\":\"stoic\",\"background\":\"fell from a cliff\",\"traits\":[\"calm\",\"gritty\",\"old\",\"patient\",\"silent\"]\x7d trailing"

/-- The decoded Rocky persona object. -/
def rockyJson : Json :=
  Json.obj
    [("name", Json.str "Rocky"),
     ("description", Json.str "a pebble"),
     ("personality", Json.str "stoic"),
     ("background", Json.str "fell from a cliff"),
     ("traits", Json.arr
        [Json.str "calm", Json.str "gritty", Json.str "old",
         Json.str "patient", Json.str "silent"])]

/-- The malformed provider text of the rejection example: decodes as
JSON but carries only the `name` field. -/
def partialPersonaText : String := "\x7b\"name\":\"Rocky\"\x7d"

/-! ## Claims about the persona extraction route -/

/-- C1: on provider text whose brace-delimited candidate decodes as
JSON but is missing the required fields, the route nevertheless
answers success, carrying the partial record (only `name`; no
`description`, `personality`, `background` or `traits`) — it never
fails with a malformed-persona error, because no field validation
follows `JSON.parse`. -/
theorem missing_fields_accepted_as_persona :
    generatePersonaRoute true (ProviderOutcome.ok (some partialPersonaText)) =
      PersonaRouteResult.ok (Json.obj [("name", Json.str "Rocky")])
    ∧ (Json.obj [("name", Json.str "Rocky")]).getField "description" = none
    ∧ (Json.obj [("name", Json.str "Rocky")]).getField "personality" = none
    ∧ (Json.obj [("name", Json.str "Rocky")]).getField "background" = none
    ∧ (Json.obj [("name", Json.str "Rocky")]).getField "traits" = none :=
  ⟨rfl, rfl, rfl, rfl, rfl⟩

/-- C2: on the noisy Rocky text, extraction carves the substring from
the first opening brace to the last closing brace, decodes it, and the
route reports success with a record whose `name` is `"Rocky"` and
whose `traits` array has length 5, the surrounding noise ignored. -/
theorem extraction_roundtrip_rocky :
    generatePersonaRoute true (ProviderOutcome.ok (some rockyText)) =
      PersonaRouteResult.ok rockyJson
    ∧ rockyJson.getField "name" = some (Json.str "Rocky")
    ∧ (rockyJson.getField "traits").bind Json.arrLength = some 5 :=
  ⟨rfl, rfl, rfl⟩

/-! ## Claims about the prompt assembler -/

/-- C7: the assembled message list is exactly one system message whose
content interpolates the persona's name, description, personality,
background and comma-joined traits into the fixed template, then every
history turn in original order with its role preserved verbatim, then
a final user-role message carrying the new text. -/
theorem prompt_assembler_shape (p : Persona) (h : List Turn) (m : String) :
    assembleMessages p h m =
      Msg.mk Role.system
        ("You are " ++ p.name ++ ". " ++ p.description ++
         "\n\nYour personality: " ++ p.personality ++
         "\n\nYour background: " ++ p.background ++
         "\n\nYour key traits: " ++ String.intercalate ", " p.traits ++
         "\n\nIMPORTANT: You must stay in character as " ++ p.name ++
         " at all times. Respond as if you are this person/object with the personality, background, and traits described above. Be creative, engaging, and consistent with your character. Use the personality traits and background to inform your responses." ++
         "\n\nKeep your responses conversational and relatively brief (2-4 sentences typically), but feel free to be more detailed when the situation calls for it. Show emotion and personality in your responses.")
      :: (h.map (fun t => Msg.mk t.role.toRole t.content) ++ [Msg.mk Role.user m]) :=
  rfl

/-- C8: prompt assembly is a pure, deterministic function of exactly
the persona, the history and the user message: two invocations on the
same inputs yield identical message lists. -/
theorem prompt_assembler_deterministic (p : Persona) (h : List Turn) (m : String) :
    assembleMessages p h m = assembleMessages p h m :=
  rfl

/-! ## Helper lemmas about one send -/

/-- One send never changes the installed persona. -/
theorem handleSendMessage_persona (st : HomeState) (m : String)
    (o : ProviderOutcome) :
    (handleSendMessage st m o).state.persona = st.persona := by
  obtain ⟨si, pp, ch⟩ := st
  cases pp with
  | none => rfl
  | some p =>
    unfold handleSendMessage
    dsimp only
    split <;> rfl

/-- With a persona installed, one send appends exactly the user turn
and one assistant turn (the reply or the fallback) to the history. -/
theorem handleSendMessage_appends (st : HomeState) (p : Persona) (m : String)
    (o : ProviderOutcome) (hp : st.persona = some p) :
    ∃ a : String, (handleSendMessage st m o).state.chatHistory =
      st.chatHistory ++ [⟨ChatRole.user, m⟩, ⟨ChatRole.assistant, a⟩] := by
  obtain ⟨si, pp, ch⟩ := st
  cases hp
  unfold handleSendMessage
  dsimp only
  split
  case _ c heq => exact ⟨c, by simp⟩
  case _ msg code heq => exact ⟨fallbackText, by simp⟩

/-! ## Claims about the session controller -/

/-- C3: with an active persona, whenever the provider call behind a
send fails (thrown fetch, non-success status, or missing/empty
response text), the history afterwards ends with the user turn
followed immediately by an assistant turn carrying the fixed apology
text, and the operation re-throws to its caller. -/
theorem submitTurn_fallback_on_failure (st : HomeState) (p : Persona) (m : String)
    (o : ProviderOutcome) (hp : st.persona = some p) (hm : m.isEmpty = false)
    (hfail : providerFails o = true) :
    (handleSendMessage st m o).state.chatHistory =
      st.chatHistory ++ [⟨ChatRole.user, m⟩, ⟨ChatRole.assistant, fallbackText⟩]
    ∧ (handleSendMessage st m o).threw = true := by
  obtain ⟨si, pp, ch⟩ := st
  cases hp
  unfold handleSendMessage chatRoutePost
  dsimp only
  rw [hm]
  cases o with
  | networkError => exact ⟨by simp, rfl⟩
  | httpError s => exact ⟨by simp, rfl⟩
  | ok c =>
    cases c with
    | none => exact ⟨by simp, rfl⟩
    | some s =>
      have hs : s.isEmpty = true := hfail
      exact ⟨by simp [hs], by simp [hs]⟩

/-- C3 witness at a failing network call. -/
theorem submitTurn_fallback_on_failure_witness :
    (handleSendMessage sampleState "hello" ProviderOutcome.networkError).state.chatHistory =
      sampleState.chatHistory ++
        [⟨ChatRole.user, "hello"⟩, ⟨ChatRole.assistant, fallbackText⟩]
    ∧ (handleSendMessage sampleState "hello" ProviderOutcome.networkError).threw = true :=
  submitTurn_fallback_on_failure sampleState samplePersona "hello"
    ProviderOutcome.networkError rfl rfl rfl

/-- C4: whenever persona creation reports failure — no image selected,
the fetch threw, or the response was non-success — the session state
afterwards is exactly the state before: the persona (or its absence)
and the history are untouched. -/
theorem createPersona_failure_preserves_state (st : HomeState)
    (api : PersonaApiOutcome) (h : (generatePersona st api).2 = false) :
    (generatePersona st api).1 = st := by
  cases hs : st.selectedImage with
  | none => simp [generatePersona, hs]
  | some img =>
    cases api with
    | ok p => simp [generatePersona, hs] at h
    | networkError => simp [generatePersona, hs]
    | httpFail => simp [generatePersona, hs]

/-- C4 witness at a non-success persona response. -/
theorem createPersona_failure_preserves_state_witness :
    (generatePersona sampleState PersonaApiOutcome.httpFail).1 = sampleState :=
  createPersona_failure_preserves_state sampleState PersonaApiOutcome.httpFail rfl

/-- C5: whenever persona creation reports success, the history
afterwards is empty — whatever its prior length — and the installed
persona is exactly the newly extracted one. -/
theorem createPersona_success_resets_log (st : HomeState)
    (api : PersonaApiOutcome) (h : (generatePersona st api).2 = true) :
    (generatePersona st api).1.chatHistory = []
    ∧ ∃ p, api = PersonaApiOutcome.ok p
        ∧ (generatePersona st api).1.persona = some p := by
  cases hs : st.selectedImage with
  | none => simp [generatePersona, hs] at h
  | some img =>
    cases api with
    | ok p =>
      exact ⟨by simp [generatePersona, hs], p, rfl, by simp [generatePersona, hs]⟩
    | networkError => simp [generatePersona, hs] at h
    | httpFail => simp [generatePersona, hs] at h

/-- C5 witness at a successful creation over a non-empty log. -/
theorem createPersona_success_resets_log_witness :
    (generatePersona
        ⟨some "img", some samplePersona, [⟨ChatRole.user, "old"⟩]⟩
        (PersonaApiOutcome.ok samplePersona)).1.chatHistory = []
    ∧ ∃ p, PersonaApiOutcome.ok samplePersona = PersonaApiOutcome.ok p
        ∧ (generatePersona
            ⟨some "img", some samplePersona, [⟨ChatRole.user, "old"⟩]⟩
            (PersonaApiOutcome.ok samplePersona)).1.persona = some p :=
  createPersona_success_resets_log
    ⟨some "img", some samplePersona, [⟨ChatRole.user, "old"⟩]⟩
    (PersonaApiOutcome.ok samplePersona) rfl

/-- C6: with an active persona, any sequence of sends — each
succeeding or failing — only appends to the history, never altering or
removing what was there, and adds exactly two entries (one user, one
assistant-or-fallback) per submitted turn. -/
theorem submitTurn_log_append_only (st : HomeState) (p : Persona)
    (turns : List (String × ProviderOutcome)) (hp : st.persona = some p) :
    ∃ tail, (runTurns st turns).chatHistory = st.chatHistory ++ tail
      ∧ tail.length = 2 * turns.length := by
  induction turns generalizing st with
  | nil => exact ⟨[], by simp [runTurns]⟩
  | cons t rest ih =>
    obtain ⟨a, ha⟩ := handleSendMessage_appends st p t.1 t.2 hp
    have hp' : (handleSendMessage st t.1 t.2).state.persona = some p := by
      rw [handleSendMessage_persona]; exact hp
    obtain ⟨tail, htail, hlen⟩ := ih _ hp'
    refine ⟨[⟨ChatRole.user, t.1⟩, ⟨ChatRole.assistant, a⟩] ++ tail, ?_, ?_⟩
    · show (runTurns (handleSendMessage st t.1 t.2).state rest).chatHistory = _
      rw [htail, ha]
      simp
    · simp only [List.length_append, List.length_cons, List.length_nil, hlen]
      omega

/-- C6 witness at a two-turn sequence, one success and one failure. -/
theorem submitTurn_log_append_only_witness :
    ∃ tail,
      (runTurns sampleState
        [("hi", ProviderOutcome.ok (some "hello!")),
         ("again", ProviderOutcome.networkError)]).chatHistory =
        sampleState.chatHistory ++ tail
      ∧ tail.length = 2 *
          ([("hi", ProviderOutcome.ok (some "hello!")),
            ("again", ProviderOutcome.networkError)] :
              List (String × ProviderOutcome)).length :=
  submitTurn_log_append_only sampleState samplePersona
    [("hi", ProviderOutcome.ok (some "hello!")),
     ("again", ProviderOutcome.networkError)] rfl

/-- C9: a whitespace-only input, or the absence of a persona, makes
the caller-facing send a no-op: the state (so the history) is
unchanged, no provider request is issued, and nothing is thrown. -/
theorem submitTurn_empty_input_noop (st : HomeState) (input : String)
    (busy : Bool) (o : ProviderOutcome)
    (h : jsTrim input = "" ∨ st.persona = none) :
    submitTurn st input busy o = ⟨st, none, false⟩ := by
  unfold submitTurn
  rcases h with h | h
  · have ht : (jsTrim input).isEmpty = true := by rw [h]; rfl
    rw [ht]
    simp
  · rw [h]
    simp

/-- C9 witness at a whitespace-only input with a persona installed. -/
theorem submitTurn_empty_input_noop_witness :
    submitTurn sampleState "   " false ProviderOutcome.networkError =
      ⟨sampleState, none, false⟩ :=
  submitTurn_empty_input_noop sampleState "   " false ProviderOutcome.networkError
    (Or.inl (by decide))

/-- C10: with an active persona and a non-empty message, the message
list sent to the external completion provider carries the new user
text twice — Home appends the user turn to the history it transmits
and the chat route appends the same text again as the final user-role
message — so the request ends with two consecutive identical user
messages. -/
theorem request_duplicates_user_message (st : HomeState) (p : Persona)
    (m : String) (o : ProviderOutcome) (hp : st.persona = some p)
    (hm : m.isEmpty = false) :
    (handleSendMessage st m o).request =
      some ((Msg.mk Role.system (systemPrompt p) :: st.chatHistory.map turnToMsg) ++
        [Msg.mk Role.user m, Msg.mk Role.user m]) := by
  obtain ⟨si, pp, ch⟩ := st
  cases hp
  have hmsgs : assembleMessages p (ch ++ [⟨ChatRole.user, m⟩]) m =
      (Msg.mk Role.system (systemPrompt p) :: ch.map turnToMsg) ++
        [Msg.mk Role.user m, Msg.mk Role.user m] := by
    unfold assembleMessages
    simp [turnToMsg, ChatRole.toRole]
  unfold handleSendMessage chatRoutePost
  dsimp only
  rw [hm]
  cases o with
  | networkError => simpa using hmsgs
  | httpError s => simpa using hmsgs
  | ok c =>
    cases c with
    | none => simpa using hmsgs
    | some s =>
      by_cases hs : s.isEmpty <;> simp [hs] <;> exact hmsgs

/-- C10 witness at a successful send. -/
theorem request_duplicates_user_message_witness :
    (handleSendMessage sampleState "hello"
        (ProviderOutcome.ok (some "hi there"))).request =
      some ((Msg.mk Role.system (systemPrompt samplePersona) ::
          sampleState.chatHistory.map turnToMsg) ++
        [Msg.mk Role.user "hello", Msg.mk Role.user "hello"]) :=
  request_duplicates_user_message sampleState samplePersona "hello"
    (ProviderOutcome.ok (some "hi there")) rfl rfl
